import Mathlib

/-!
Shallow embedding of the query-routing core of `kysely-mysql-replica`
(`src/driver.ts`, class `ReplicaDriver`), the layer that routes each compiled
query of a logical connection to either a read-replica pool or a primary
(write) pool.

Modelling conventions:
* JavaScript reference identity of a pool object (`===`) is modelled by a
  numeric reference tag on `PoolHandle`.
* The `#transactions: Set<string>` registry is a `Finset String`.
* Kysely's `SelectQueryNode.is(node)` checks the node's `kind` tag; query
  nodes are modelled by that tag.
* Stateful methods are modelled as pure functions returning the new registry
  together with a trace of the observable effects they perform (driver
  delegations, console output, connection releases), in order.
-/

namespace KyselyReplica

/-- A pool object from the dialect configuration. `ref` stands for JavaScript
reference identity: two handles are `===` exactly when their `ref`s agree. -/
structure PoolHandle where
  ref : Nat
deriving DecidableEq

/-- The `pools: { read, write }` field of the configuration (driver.ts lines 12-19). -/
structure Pools where
  read : PoolHandle
  write : PoolHandle
deriving DecidableEq

/-- A kysely operation node, reduced to its `kind` tag, which is all the
routing logic inspects. -/
structure QueryNode where
  kind : String
deriving DecidableEq

namespace SelectQueryNode

/-- Kysely's `SelectQueryNode.is(node)`: true exactly when the root node's
kind tag is `SelectQueryNode`, i.e. the statement is a top-level select. -/
def is (node : QueryNode) : Bool :=
  node.kind = "SelectQueryNode"

end SelectQueryNode

/-- A compiled query as seen by `executeQuery`/`streamQuery`: the root
operation node plus the compiled SQL text (the latter is opaque to routing). -/
structure CompiledQuery where
  query : QueryNode
  sql : String
deriving DecidableEq

/-- Which of the two sides of the replica pair a query is routed to. -/
inductive Side
  | read
  | write
deriving DecidableEq

/-- The two underlying vendor driver instances held by `ReplicaDriver`
(`#readDriver` and `#writeDriver`). -/
inductive DriverSide
  | readDriver
  | writeDriver
deriving DecidableEq

/-- Which member of the acquired underlying-connection pair an operation is
applied to (`readConnection` / `writeConnection` in `acquireConnection`). -/
inductive ConnSide
  | readConn
  | writeConn
deriving DecidableEq

/-- An underlying `DatabaseConnection`: `executeQuery` produces a scalar
result of type `R`, `streamQuery` a stream of type `S`. The results are
opaque to the router, which only picks which connection to call. -/
structure UnderlyingConnection (R S : Type) where
  executeQuery : CompiledQuery → R
  streamQuery : CompiledQuery → S

/-- `executeQuery` of the logical connection returned by
`ReplicaDriver.acquireConnection` (driver.ts lines 64-71): if the
connection's id is in the `#transactions` registry the query goes to the
write connection; otherwise a top-level select goes to the read connection
and everything else to the write connection. The chosen connection's result
is returned as is. -/
def executeQuery {R S : Type} (transactions : Finset String) (connectionId : String)
    (readConnection writeConnection : UnderlyingConnection R S)
    (compiledQuery : CompiledQuery) : R :=
  if connectionId ∈ transactions then
    writeConnection.executeQuery compiledQuery
  else if SelectQueryNode.is compiledQuery.query then
    readConnection.executeQuery compiledQuery
  else
    writeConnection.executeQuery compiledQuery

/-- `streamQuery` of the logical connection (driver.ts lines 80-88): the same
registry check and select test as `executeQuery`, dispatching to the chosen
connection's `streamQuery`. -/
def streamQuery {R S : Type} (transactions : Finset String) (connectionId : String)
    (readConnection writeConnection : UnderlyingConnection R S)
    (compiledQuery : CompiledQuery) : S :=
  if connectionId ∈ transactions then
    writeConnection.streamQuery compiledQuery
  else if SelectQueryNode.is compiledQuery.query then
    readConnection.streamQuery compiledQuery
  else
    writeConnection.streamQuery compiledQuery

/-- A marker connection whose every call reports the side it lives on; used
to read off which side the dispatch functions select. -/
def sideMarker (s : Side) : UnderlyingConnection Side Side :=
  { executeQuery := fun _ => s, streamQuery := fun _ => s }

/-- The side `executeQuery` dispatches to, as a function of registry state,
connection id and query. -/
def executeQueryRoute (transactions : Finset String) (connectionId : String)
    (compiledQuery : CompiledQuery) : Side :=
  executeQuery transactions connectionId (sideMarker Side.read) (sideMarker Side.write)
    compiledQuery

/-- The side `streamQuery` dispatches to, as a function of registry state,
connection id and query. -/
def streamQueryRoute (transactions : Finset String) (connectionId : String)
    (compiledQuery : CompiledQuery) : Side :=
  streamQuery transactions connectionId (sideMarker Side.read) (sideMarker Side.write)
    compiledQuery

/-- One observable step of a transaction-control method: a registry mutation
or a delegation to one of the underlying drivers on one of the underlying
connections. -/
inductive TxStep
  | registryAdd (id : String)
  | registryDelete (id : String)
  | delegateBegin (driver : DriverSide) (conn : ConnSide)
  | delegateCommit (driver : DriverSide) (conn : ConnSide)
  | delegateRollback (driver : DriverSide) (conn : ConnSide)
deriving DecidableEq

/-- `ReplicaDriver.beginTransaction` (driver.ts lines 92-99): adds the logical
connection's id to `#transactions`, then delegates the transaction start to
the write driver on the write-side underlying connection. Returns the new
registry and the ordered effect trace. -/
def beginTransaction (transactions : Finset String) (connectionId : String) :
    Finset String × List TxStep :=
  (insert connectionId transactions,
   [TxStep.registryAdd connectionId,
    TxStep.delegateBegin DriverSide.writeDriver ConnSide.writeConn])

/-- `ReplicaDriver.commitTransaction` (driver.ts lines 101-105): fetches the
write-side connection, deletes the id from `#transactions`, then delegates
the commit to the write driver on the write-side connection. -/
def commitTransaction (transactions : Finset String) (connectionId : String) :
    Finset String × List TxStep :=
  (transactions.erase connectionId,
   [TxStep.registryDelete connectionId,
    TxStep.delegateCommit DriverSide.writeDriver ConnSide.writeConn])

/-- `ReplicaDriver.rollbackTransaction` (driver.ts lines 129-133): deletes the
id from `#transactions`, then delegates the rollback to the write driver on
the write-side connection. -/
def rollbackTransaction (transactions : Finset String) (connectionId : String) :
    Finset String × List TxStep :=
  (transactions.erase connectionId,
   [TxStep.registryDelete connectionId,
    TxStep.delegateRollback DriverSide.writeDriver ConnSide.writeConn])

/-- One observable step of `releaseConnection`: release of one member of the
underlying connection pair through its driver. -/
inductive ReleaseStep
  | releaseOn (driver : DriverSide) (conn : ConnSide)
deriving DecidableEq

/-- `ReplicaDriver.releaseConnection` (driver.ts lines 125-127), which calls
the logical connection's `replicaConnection.release` (lines 75-78): releases
the write-side underlying connection via the write driver, then the read-side
via the read driver. The `#transactions` registry is not touched. -/
def releaseConnection (transactions : Finset String) (_connectionId : String) :
    Finset String × List ReleaseStep :=
  (transactions,
   [ReleaseStep.releaseOn DriverSide.writeDriver ConnSide.writeConn,
    ReleaseStep.releaseOn DriverSide.readDriver ConnSide.readConn])

/-- One observable effect of `destroy`: a console log line or the `destroy()`
call of one of the two underlying drivers. -/
inductive DestroyEffect
  | consoleLog (msg : String)
  | driverDestroy (driver : DriverSide)
deriving DecidableEq

/-- `ReplicaDriver.destroy` (driver.ts lines 107-118): logs, then — when the
configured read and write pools are reference-identical — destroys only the
write driver (to avoid double teardown of one physical pool); otherwise
destroys the write driver and then the read driver. Returns the ordered
effect trace. -/
def destroy (pools : Pools) : List DestroyEffect :=
  DestroyEffect.consoleLog "CALLED THE THINGY!!" ::
    (if pools.read = pools.write then
      [DestroyEffect.consoleLog "SAME POOL!!!",
       DestroyEffect.driverDestroy DriverSide.writeDriver]
    else
      [DestroyEffect.driverDestroy DriverSide.writeDriver,
       DestroyEffect.driverDestroy DriverSide.readDriver])

/-- The pool owned by each underlying driver: `#readDriver` is constructed
over `pools.read`, `#writeDriver` over `pools.write` (driver.ts lines 44-49). -/
def driverPool (pools : Pools) : DriverSide → PoolHandle
  | DriverSide.readDriver => pools.read
  | DriverSide.writeDriver => pools.write

/-- The underlying drivers torn down by `destroy`, in order. -/
def driverTeardowns (pools : Pools) : List DriverSide :=
  (destroy pools).filterMap fun e =>
    match e with
    | DestroyEffect.driverDestroy d => some d
    | DestroyEffect.consoleLog _ => none

/-- The physical pools torn down by `destroy`, in order: each destroyed
driver tears down the pool it was constructed over. -/
def poolTeardowns (pools : Pools) : List PoolHandle :=
  (driverTeardowns pools).map (driverPool pools)

/-- The runtime configuration object handed to `new ReplicaDriver(config)`:
a `pools` pair and a database-kind tag (the remaining dialect-config fields
are opaque to the routing core). The declared type restricts `type` to
`"mysql" | "pg"`, but the runtime switch sees an arbitrary string. -/
structure RunConfig where
  pools : Pools
  type : String
deriving DecidableEq

/-- The private state a successfully constructed `ReplicaDriver` holds:
its config's pools, the (initially empty) transaction registry, and which
vendor's drivers were instantiated. -/
structure ReplicaDriverState where
  configPools : Pools
  transactions : Finset String
  vendor : String

/-- One observable effect of the constructor: instantiation of one underlying
vendor driver over one pool. -/
inductive ConstructEffect
  | constructDriver (vendor : String) (driver : DriverSide) (pool : PoolHandle)
deriving DecidableEq

/-- The `ReplicaDriver` constructor (driver.ts lines 40-55): switches on
`config.type`; for `"mysql"` or `"pg"` it constructs a read driver over
`pools.read` and a write driver over `pools.write` of that vendor; for any
other tag it throws `Error("Only MySQL and Postgres are supported")` before
constructing anything. Returns the outcome and the ordered trace of driver
constructions (no connection is attempted in either case). -/
def constructReplicaDriver (config : RunConfig) :
    Except String ReplicaDriverState × List ConstructEffect :=
  if config.type = "mysql" then
    (Except.ok { configPools := config.pools, transactions := ∅, vendor := "mysql" },
     [ConstructEffect.constructDriver "mysql" DriverSide.readDriver config.pools.read,
      ConstructEffect.constructDriver "mysql" DriverSide.writeDriver config.pools.write])
  else if config.type = "pg" then
    (Except.ok { configPools := config.pools, transactions := ∅, vendor := "pg" },
     [ConstructEffect.constructDriver "pg" DriverSide.readDriver config.pools.read,
      ConstructEffect.constructDriver "pg" DriverSide.writeDriver config.pools.write])
  else
    (Except.error "Only MySQL and Postgres are supported", [])

/-- `ReplicaDriver.acquireConnection` (driver.ts lines 57-61) acquires a read
and a write underlying connection with `Promise.all`. Given the outcome of
each underlying acquisition (connections tagged by `Nat`), returns the
combined outcome together with the list of underlying connections released
during acquisition: `Promise.all` performs no cleanup, so when either side
fails the combined acquisition fails with that error and nothing is
released. -/
def acquireConnectionPair (readResult writeResult : Except String Nat) :
    Except String (Nat × Nat) × List Nat :=
  match readResult, writeResult with
  | Except.ok readConnection, Except.ok writeConnection =>
      (Except.ok (readConnection, writeConnection), [])
  | Except.error e, _ => (Except.error e, [])
  | _, Except.error e => (Except.error e, [])

/-- A candidate construction-time configuration shape: it may carry a lone
`pool` entry, a `pools: { read, write }` pair, or both, plus a kind tag. -/
structure CandidateConfig where
  pool : Option PoolHandle
  pools : Option Pools
  type : String
deriving DecidableEq

/-- The construction-time configuration surface declared in driver.ts
(lines 12-32): `MysqlReplicaDriverConfig` and `PostgresReplicaDriverConfig`
both require a `pools` field holding a read and a write handle together with
a `type` tag of `"mysql"` or `"pg"`; no variant built around a lone `pool`
field exists (the base dialect config's `pool` member is removed with
`Omit`). A candidate shape is accepted exactly when it provides `pools` and
a recognized tag. -/
def acceptsReplicaDriverConfig (c : CandidateConfig) : Bool :=
  c.pools.isSome && (c.type = "mysql" || c.type = "pg")

/-- A sample top-level select statement (`SELECT`-rooted compiled query). -/
def selectQuery : CompiledQuery :=
  { query := { kind := "SelectQueryNode" }, sql := "select * from Users" }

/-- A sample mutating statement (`INSERT`-rooted compiled query). -/
def insertQuery : CompiledQuery :=
  { query := { kind := "InsertQueryNode" }, sql := "insert into Users values (1)" }

/-- A sample underlying read-side connection with string results. -/
def demoReadConnection : UnderlyingConnection String String :=
  { executeQuery := fun q => "read:" ++ q.sql, streamQuery := fun q => "readStream:" ++ q.sql }

/-- A sample underlying write-side connection with string results. -/
def demoWriteConnection : UnderlyingConnection String String :=
  { executeQuery := fun q => "write:" ++ q.sql, streamQuery := fun q => "writeStream:" ++ q.sql }

/-- C1: for every compiled query executed through the logical connection's
`executeQuery`: when the connection's id is in the transaction registry the
query is dispatched to the write-side underlying connection regardless of
statement shape; otherwise a top-level select is dispatched to the read-side
connection and any other statement to the write-side connection, and in each
case the chosen connection's result is returned unmodified. -/
theorem executeQuery_routing {R S : Type} (transactions : Finset String)
    (connectionId : String) (readConnection writeConnection : UnderlyingConnection R S)
    (compiledQuery : CompiledQuery) :
    (connectionId ∈ transactions →
      executeQuery transactions connectionId readConnection writeConnection compiledQuery
        = writeConnection.executeQuery compiledQuery)
    ∧ (connectionId ∉ transactions → SelectQueryNode.is compiledQuery.query = true →
      executeQuery transactions connectionId readConnection writeConnection compiledQuery
        = readConnection.executeQuery compiledQuery)
    ∧ (connectionId ∉ transactions → SelectQueryNode.is compiledQuery.query = false →
      executeQuery transactions connectionId readConnection writeConnection compiledQuery
        = writeConnection.executeQuery compiledQuery) := by
  refine ⟨fun h => ?_, fun h hsel => ?_, fun h hsel => ?_⟩
  · simp [executeQuery, h]
  · simp [executeQuery, h, hsel]
  · simp [executeQuery, h, hsel]

/-- C1 witness: with id "tx1" registered, a select goes to the write
connection; with an empty registry, a select goes to the read connection and
an insert to the write connection, each returning that connection's result. -/
theorem executeQuery_routing_witness :
    executeQuery {"tx1"} "tx1" demoReadConnection demoWriteConnection selectQuery
      = demoWriteConnection.executeQuery selectQuery
    ∧ executeQuery (∅ : Finset String) "c1" demoReadConnection demoWriteConnection selectQuery
      = demoReadConnection.executeQuery selectQuery
    ∧ executeQuery (∅ : Finset String) "c1" demoReadConnection demoWriteConnection insertQuery
      = demoWriteConnection.executeQuery insertQuery :=
  ⟨(executeQuery_routing {"tx1"} "tx1" demoReadConnection demoWriteConnection selectQuery).1
      (by decide),
   (executeQuery_routing ∅ "c1" demoReadConnection demoWriteConnection selectQuery).2.1
      (by decide) (by decide),
   (executeQuery_routing ∅ "c1" demoReadConnection demoWriteConnection insertQuery).2.2
      (by decide) (by decide)⟩

/-- C2: for every compiled query and registry state, streaming dispatch picks
exactly the side scalar dispatch picks — streamQuery sends its query to the
underlying connection on the side executeQuery would choose, and the two
route functions agree everywhere. -/
theorem streamQuery_routes_like_executeQuery {R S : Type} (transactions : Finset String)
    (connectionId : String) (readConnection writeConnection : UnderlyingConnection R S)
    (compiledQuery : CompiledQuery) :
    streamQuery transactions connectionId readConnection writeConnection compiledQuery
      = (match executeQueryRoute transactions connectionId compiledQuery with
         | Side.read => readConnection.streamQuery compiledQuery
         | Side.write => writeConnection.streamQuery compiledQuery)
    ∧ streamQueryRoute transactions connectionId compiledQuery
      = executeQueryRoute transactions connectionId compiledQuery := by
  unfold streamQueryRoute executeQueryRoute streamQuery executeQuery sideMarker
  by_cases h1 : connectionId ∈ transactions
  · simp [h1]
  · by_cases h2 : SelectQueryNode.is compiledQuery.query = true
    · simp [h1, h2]
    · simp [h1, h2]

/-- C3: when the configured read and write pool handles are
reference-identical, destroy tears down exactly one underlying driver — the
write driver — and the shared physical pool exactly once; when they are
distinct, destroy tears down both drivers and both pools. -/
theorem destroy_teardown_dedup (pools : Pools) :
    (pools.read = pools.write →
      driverTeardowns pools = [DriverSide.writeDriver]
        ∧ poolTeardowns pools = [pools.write])
    ∧ (pools.read ≠ pools.write →
      driverTeardowns pools = [DriverSide.writeDriver, DriverSide.readDriver]
        ∧ poolTeardowns pools = [pools.write, pools.read]) := by
  constructor
  · intro h
    simp [driverTeardowns, poolTeardowns, destroy, driverPool, h]
  · intro h
    simp [driverTeardowns, poolTeardowns, destroy, driverPool, h]

/-- C3 witness: with both roles backed by pool #0, teardown hits only the
write driver and pool #0 once; with pools #0/#1, both drivers and both pools
are torn down. -/
theorem destroy_teardown_dedup_witness :
    (driverTeardowns ⟨⟨0⟩, ⟨0⟩⟩ = [DriverSide.writeDriver]
      ∧ poolTeardowns ⟨⟨0⟩, ⟨0⟩⟩ = [⟨0⟩])
    ∧ (driverTeardowns ⟨⟨0⟩, ⟨1⟩⟩ = [DriverSide.writeDriver, DriverSide.readDriver]
      ∧ poolTeardowns ⟨⟨0⟩, ⟨1⟩⟩ = [⟨1⟩, ⟨0⟩]) :=
  ⟨(destroy_teardown_dedup ⟨⟨0⟩, ⟨0⟩⟩).1 rfl,
   (destroy_teardown_dedup ⟨⟨0⟩, ⟨1⟩⟩).2 (by decide)⟩

/-- C4 counterexample: with connection id "c1" in the transaction registry at
release time, releaseConnection leaves "c1" in the registry — the entry is
not removed on release, contrary to the claim. -/
theorem releaseConnection_keeps_registry_entry :
    "c1" ∈ (releaseConnection {"c1"} "c1").fst := by
  simp [releaseConnection]

/-- C4 (amended): releaseConnection releases the write-side then the
read-side underlying connection and leaves the transaction registry
unchanged; registry entries are removed only by commit and rollback, never on
release. -/
theorem releaseConnection_registry_unchanged (transactions : Finset String)
    (connectionId : String) :
    (releaseConnection transactions connectionId).fst = transactions
    ∧ (releaseConnection transactions connectionId).snd
      = [ReleaseStep.releaseOn DriverSide.writeDriver ConnSide.writeConn,
         ReleaseStep.releaseOn DriverSide.readDriver ConnSide.readConn] :=
  ⟨rfl, rfl⟩

/-- C5: commitTransaction and rollbackTransaction each record the registry
deletion before the delegation to the write-side driver on the write-side
connection; afterwards the id is absent from the registry — independently of
whether the delegation later succeeds or rejects — and routing for that id
follows the non-transactional rule (top-level select → read, otherwise →
write). -/
theorem commit_rollback_remove_then_delegate (transactions : Finset String)
    (connectionId : String) (compiledQuery : CompiledQuery) :
    (commitTransaction transactions connectionId).snd
      = [TxStep.registryDelete connectionId,
         TxStep.delegateCommit DriverSide.writeDriver ConnSide.writeConn]
    ∧ (rollbackTransaction transactions connectionId).snd
      = [TxStep.registryDelete connectionId,
         TxStep.delegateRollback DriverSide.writeDriver ConnSide.writeConn]
    ∧ connectionId ∉ (commitTransaction transactions connectionId).fst
    ∧ connectionId ∉ (rollbackTransaction transactions connectionId).fst
    ∧ executeQueryRoute (commitTransaction transactions connectionId).fst connectionId
        compiledQuery
      = (if SelectQueryNode.is compiledQuery.query then Side.read else Side.write)
    ∧ executeQueryRoute (rollbackTransaction transactions connectionId).fst connectionId
        compiledQuery
      = (if SelectQueryNode.is compiledQuery.query then Side.read else Side.write) := by
  refine ⟨rfl, rfl, ?_, ?_, ?_, ?_⟩
  · exact Finset.not_mem_erase _ _
  · exact Finset.not_mem_erase _ _
  · simp [commitTransaction, executeQueryRoute, executeQuery, sideMarker,
      Finset.not_mem_erase]
  · simp [rollbackTransaction, executeQueryRoute, executeQuery, sideMarker,
      Finset.not_mem_erase]

/-- C6 counterexample: the degenerate single-pool shape — a lone `pool`
entry with no `pools` pair — is rejected by the declared configuration
surface even with a recognized kind tag. -/
theorem singlePool_config_rejected :
    acceptsReplicaDriverConfig { pool := some ⟨0⟩, pools := none, type := "mysql" }
      = false := by
  decide

/-- C6 (amended): the construction-time surface accepts only the dual-pool
shape — every accepted configuration carries a `pools: { read, write }` pair
and a kind tag of "mysql" or "pg"; the degenerate single-pool mode is
obtained by passing the same pool handle for both roles, not via a
`{ pool }` shape. -/
theorem accepted_config_has_dual_pools (c : CandidateConfig)
    (h : acceptsReplicaDriverConfig c = true) :
    (∃ ps : Pools, c.pools = some ps) ∧ (c.type = "mysql" ∨ c.type = "pg") := by
  simp only [acceptsReplicaDriverConfig, Bool.and_eq_true, Bool.or_eq_true,
    Option.isSome_iff_exists, decide_eq_true_eq] at h
  exact h

/-- C6 witness: a dual-pool postgres configuration is accepted and indeed
carries a pools pair and a recognized tag. -/
theorem accepted_config_has_dual_pools_witness :
    (∃ ps : Pools,
      ({ pool := none, pools := some ⟨⟨0⟩, ⟨1⟩⟩, type := "pg" } : CandidateConfig).pools
        = some ps)
    ∧ (({ pool := none, pools := some ⟨⟨0⟩, ⟨1⟩⟩, type := "pg" } : CandidateConfig).type
        = "mysql"
      ∨ ({ pool := none, pools := some ⟨⟨0⟩, ⟨1⟩⟩, type := "pg" } : CandidateConfig).type
        = "pg") :=
  accepted_config_has_dual_pools
    { pool := none, pools := some ⟨⟨0⟩, ⟨1⟩⟩, type := "pg" } (by decide)

/-- C7 counterexample: when the read-side acquisition fails and the
write-side acquisition succeeds (connection #7), the combined acquisition
propagates the error while releasing nothing — the surviving write-side
connection is not released before the error propagates, contrary to the
claim. -/
theorem acquire_pair_no_cleanup_counterexample :
    (acquireConnectionPair (Except.error "read pool down") (Except.ok 7)).fst
      = Except.error "read pool down"
    ∧ (acquireConnectionPair (Except.error "read pool down") (Except.ok 7)).snd = [] :=
  ⟨rfl, rfl⟩

/-- C7 (amended): acquireConnection combines the two underlying acquisitions
with Promise.all semantics and performs no cleanup: when both succeed the
pair is returned with nothing released; when exactly one side fails the
combined acquisition fails with that error and the successfully acquired
side is not released (it leaks). -/
theorem acquire_pair_behavior (readConnection writeConnection : Nat) (e : String) :
    acquireConnectionPair (Except.ok readConnection) (Except.ok writeConnection)
      = (Except.ok (readConnection, writeConnection), [])
    ∧ acquireConnectionPair (Except.error e) (Except.ok writeConnection)
      = (Except.error e, [])
    ∧ acquireConnectionPair (Except.ok readConnection) (Except.error e)
      = (Except.error e, []) :=
  ⟨rfl, rfl, rfl⟩

/-- C8: destroy is not free of console output — its effect trace contains the
ad hoc log line "CALLED THE THINGY!!" whether or not the two roles share a
pool, and additionally "SAME POOL!!!" when they do. -/
theorem destroy_emits_console_log :
    DestroyEffect.consoleLog "CALLED THE THINGY!!" ∈ destroy ⟨⟨0⟩, ⟨1⟩⟩
    ∧ DestroyEffect.consoleLog "CALLED THE THINGY!!" ∈ destroy ⟨⟨0⟩, ⟨0⟩⟩
    ∧ DestroyEffect.consoleLog "SAME POOL!!!" ∈ destroy ⟨⟨0⟩, ⟨0⟩⟩ := by
  refine ⟨?_, ?_, ?_⟩ <;> decide

/-- C9: constructing the driver with an unrecognized kind tag fails
immediately with the descriptive error "Only MySQL and Postgres are
supported" and an empty effect trace: no underlying driver is constructed
(no partial state) and no connection is attempted. -/
theorem unknown_type_fails_construction (config : RunConfig)
    (h1 : config.type ≠ "mysql") (h2 : config.type ≠ "pg") :
    (constructReplicaDriver config).fst
      = Except.error "Only MySQL and Postgres are supported"
    ∧ (constructReplicaDriver config).snd = [] := by
  simp [constructReplicaDriver, h1, h2]

/-- C9 witness: kind tag "whatever" yields the descriptive error and no
constructed driver. -/
theorem unknown_type_fails_construction_witness :
    (constructReplicaDriver ⟨⟨⟨0⟩, ⟨1⟩⟩, "whatever"⟩).fst
      = Except.error "Only MySQL and Postgres are supported"
    ∧ (constructReplicaDriver ⟨⟨⟨0⟩, ⟨1⟩⟩, "whatever"⟩).snd = [] :=
  unknown_type_fails_construction ⟨⟨⟨0⟩, ⟨1⟩⟩, "whatever"⟩ (by decide) (by decide)

/-- C10: transaction-control calls for id a leave the registry membership of
any other id b unchanged, and therefore leave the routing of every query
issued on b's logical connection unchanged, for scalar and streaming
dispatch alike. -/
theorem transaction_ops_frame (transactions : Finset String) (a b : String)
    (h : a ≠ b) (compiledQuery : CompiledQuery) :
    (b ∈ (beginTransaction transactions a).fst ↔ b ∈ transactions)
    ∧ (b ∈ (commitTransaction transactions a).fst ↔ b ∈ transactions)
    ∧ (b ∈ (rollbackTransaction transactions a).fst ↔ b ∈ transactions)
    ∧ executeQueryRoute (beginTransaction transactions a).fst b compiledQuery
      = executeQueryRoute transactions b compiledQuery
    ∧ executeQueryRoute (commitTransaction transactions a).fst b compiledQuery
      = executeQueryRoute transactions b compiledQuery
    ∧ executeQueryRoute (rollbackTransaction transactions a).fst b compiledQuery
      = executeQueryRoute transactions b compiledQuery
    ∧ streamQueryRoute (beginTransaction transactions a).fst b compiledQuery
      = streamQueryRoute transactions b compiledQuery
    ∧ streamQueryRoute (commitTransaction transactions a).fst b compiledQuery
      = streamQueryRoute transactions b compiledQuery
    ∧ streamQueryRoute (rollbackTransaction transactions a).fst b compiledQuery
      = streamQueryRoute transactions b compiledQuery := by
  have hba : b ≠ a := Ne.symm h
  have hins : b ∈ insert a transactions ↔ b ∈ transactions := by
    simp [Finset.mem_insert, hba]
  have hera : b ∈ transactions.erase a ↔ b ∈ transactions := by
    simp [Finset.mem_erase, hba]
  refine ⟨?_, ?_, ?_, ?_, ?_, ?_, ?_, ?_, ?_⟩
  · simpa [beginTransaction] using hins
  · simpa [commitTransaction] using hera
  · simpa [rollbackTransaction] using hera
  · simp [beginTransaction, executeQueryRoute, executeQuery, sideMarker, hins]
  · simp [commitTransaction, executeQueryRoute, executeQuery, sideMarker, hera]
  · simp [rollbackTransaction, executeQueryRoute, executeQuery, sideMarker, hera]
  · simp [beginTransaction, streamQueryRoute, streamQuery, sideMarker, hins]
  · simp [commitTransaction, streamQueryRoute, streamQuery, sideMarker, hera]
  · simp [rollbackTransaction, streamQueryRoute, streamQuery, sideMarker, hera]

/-- C10 witness: beginning a transaction for id "a" leaves id "b" (which is
registered) in the registry and leaves the routing of a select on "b"
unchanged. -/
theorem transaction_ops_frame_witness :
    "b" ∈ (beginTransaction {"b"} "a").fst
    ∧ executeQueryRoute (beginTransaction {"b"} "a").fst "b" selectQuery
      = executeQueryRoute {"b"} "b" selectQuery :=
  ⟨((transaction_ops_frame {"b"} "a" "b" (by decide) selectQuery).1).mpr (by decide),
   (transaction_ops_frame {"b"} "a" "b" (by decide) selectQuery).2.2.2.1⟩

end KyselyReplica
